import Mathlib

/-
Shallow embedding of src/priority_thread_pool.h (HerikLyma/PriorityThreadPool).

The repository is a single C++ header defining `enum class Priority`, a
`TaskPriorityComparator`, a `std::priority_queue` of (task, priority) pairs,
and the class `PriorityThreadPool` with its worker loop, constructor,
destructor, the two `add` overloads and the two introspection methods.

Modelling conventions:
 - a C++ `Task` (`std::function<void()>`) is opaque; we model it as a `Nat`
   identifier, since no claim inspects the callable itself;
 - the numeric values of the `Priority` enumerators come from the per-platform
   preprocessor block of the header: on Linux they are the values defined at
   the top of the header (Lowest = 99, Low = 75, Normal = 50, High = 25,
   Realtime = 1, COMPARATOR = greater-than); on Windows they are the SDK
   constants THREAD_PRIORITY_LOWEST = -2, BELOW_NORMAL = -1, NORMAL = 0,
   ABOVE_NORMAL = 1, HIGHEST = 2 (external platform header, not repository
   code), with COMPARATOR = less-than;
 - `std::priority_queue` is an external library component, modelled by its
   documented contract: the queue holds a multiset of elements and `top()`
   returns a greatest element under the strict weak order given by the
   comparator (the comparator plays the role of less-than); the tie-break
   among equal keys is unspecified by the source, so the model fixes one
   concrete executable choice (`popMax` returns the leftmost maximum);
 - the lock/condition-variable discipline of the methods is linearised into
   explicit action traces (`Action` lists) transcribed from the method bodies.
-/

namespace PriorityThreadPoolModel

/-- The `Priority` enumeration of the header (enum class Priority : int8_t). -/
inductive Priority
  | Lowest
  | Low
  | Normal
  | High
  | Realtime
deriving DecidableEq

/-- A task is an opaque callable; modelled as an identifier. -/
abbrev Task := Nat

/-- The header's `using TaskPriority = std::pair<Task, Priority>`. -/
abbrev TaskPriority := Task × Priority

/-- The two build platforms of the header's preprocessor switch. -/
inductive Platform
  | linux
  | windows
deriving DecidableEq

/-- The numeric value of each `Priority` enumerator, per platform.
Linux values are the macros defined in the header itself; Windows values are
the usual SDK thread-priority constants (the Windows header is external to the
repository). All values fit in the enum's underlying `int8_t`. -/
def threadPriorityValue : Platform → Priority → Int
  | .linux, .Lowest => 99
  | .linux, .Low => 75
  | .linux, .Normal => 50
  | .linux, .High => 25
  | .linux, .Realtime => 1
  | .windows, .Lowest => -2
  | .windows, .Low => -1
  | .windows, .Normal => 0
  | .windows, .High => 1
  | .windows, .Realtime => 2

/-- The header's `TaskPriorityComparator::operator()`:
`first.second COMPARATOR second.second`, where COMPARATOR is `>` on Linux and
`<` on Windows, comparing the enumerators' underlying numeric values. -/
def taskPriorityComparator (pf : Platform) (first second : TaskPriority) : Bool :=
  match pf with
  | .linux => decide (threadPriorityValue .linux first.2 > threadPriorityValue .linux second.2)
  | .windows => decide (threadPriorityValue .windows first.2 < threadPriorityValue .windows second.2)

/-- The abstract total order on priorities stated by the spec:
Realtime > High > Normal > Low > Lowest, encoded as a rank. -/
def rank : Priority → Nat
  | .Lowest => 0
  | .Low => 1
  | .Normal => 2
  | .High => 3
  | .Realtime => 4

/-- Model of `m_tasks.top()` followed by `m_tasks.pop()` on the
`std::priority_queue`: remove and return a greatest element under the
comparator's strict weak order (documented contract of the library container;
the tie-break among equal keys is unspecified, the model takes the leftmost). -/
def popMax (pf : Platform) : List TaskPriority → Option (TaskPriority × List TaskPriority)
  | [] => none
  | a :: l =>
    match popMax pf l with
    | none => some (a, [])
    | some (m, r) =>
      if taskPriorityComparator pf a m then some (m, a :: r) else some (a, l)

/-- The pool state: the class `PriorityThreadPool`'s data members that the
claims are about. `m_quit` is the shutdown flag (`std::atomic_bool`, initially
false), `m_tasks` the pending-task multiset of the priority queue, and
`m_threads` the number of worker threads held by the `std::vector<std::jthread>`. -/
structure PriorityThreadPool where
  m_quit : Bool
  m_tasks : List TaskPriority
  m_threads : Nat
deriving DecidableEq

/-- The constructor `PriorityThreadPool(const size_t maxThreads)`:
`maxThreads` is a `size_t`, so `maxThreads <= 0` holds exactly for 0, in which
case `std::invalid_argument` is thrown before any thread is created; otherwise
exactly `maxThreads` workers are spawned (the loop pushes one `std::jthread`
per index) onto an initially empty queue with the quit flag clear. -/
def construct (maxThreads : Nat) : Except String PriorityThreadPool :=
  if maxThreads ≤ 0 then Except.error "maxThreads must be greater than 0!"
  else Except.ok ⟨false, [], maxThreads⟩

/-- `m_tasks.emplace(...)` / `m_tasks.push(task)`: insert one record into the
queue's multiset of pending records. -/
def push (tasks : List TaskPriority) (tp : TaskPriority) : List TaskPriority :=
  tp :: tasks

/-- `void add(const Task task, const Priority priority)`: under the exclusive
lock, emplace the pair onto the queue (then `notify_one`, which does not change
the state). The C++ default argument for `priority` is `Priority::Normal`. -/
def add (s : PriorityThreadPool) (task : Task) (priority : Priority) : PriorityThreadPool :=
  ⟨s.m_quit, push s.m_tasks (task, priority), s.m_threads⟩

/-- `void add(std::span<TaskPriority> tasks)`: under one exclusive lock,
`std::for_each` pushes each record of the span in sequence order (then one
`notify_one`). -/
def addSpan (s : PriorityThreadPool) (tasks : List TaskPriority) : PriorityThreadPool :=
  ⟨s.m_quit, tasks.foldl push s.m_tasks, s.m_threads⟩

/-- `size_t remainingTasks() const`: under the shared lock, return
`m_tasks.size()`. The returned pair makes the frame explicit: the second
component is the (unchanged) pool state after the call. -/
def remainingTasks (s : PriorityThreadPool) : Nat × PriorityThreadPool :=
  (s.m_tasks.length, s)

/-- `bool hasRemainingTasks() const`: under the shared lock, return
`!m_tasks.empty()`; second component is the state after the call. -/
def hasRemainingTasks (s : PriorityThreadPool) : Bool × PriorityThreadPool :=
  (!s.m_tasks.isEmpty, s)

/-- Observable outcome of one pass of a worker through its loop, given the
quit flag and queue contents it observes under the lock. -/
inductive IterOutcome
  | blocked
  | exited
  | looped
  | ran (tp : TaskPriority) (rest : List TaskPriority)
deriving DecidableEq

/-- One pass of the worker thread's loop body, transcribed from the lambda in
the constructor:
`m_cv.wait(lock, [this] \x7b return m_quit || !m_tasks.empty(); \x7d);` —
if the predicate is false the worker stays blocked in Waiting (a spurious wake
re-evaluates the predicate inside `wait` and goes back to sleep, consuming
nothing). Once past the wait: if the queue is empty, `break` when `m_quit` is
set, else `continue`; otherwise `top()`/`pop()` one maximal record and go on
to execute it. `ran tp rest` reports the popped record and the remaining
queue. The `none` fallback of the match is unreachable: `popMax` is `none`
only on the empty list. -/
def workerIteration (pf : Platform) (quit : Bool) (tasks : List TaskPriority) : IterOutcome :=
  if !(quit || !tasks.isEmpty) then IterOutcome.blocked
  else if tasks.isEmpty then
    if quit then IterOutcome.exited else IterOutcome.looped
  else
    match popMax pf tasks with
    | some (tp, rest) => IterOutcome.ran tp rest
    | none => IterOutcome.looped

/-- Observable outcome of the post-dequeue OS-priority adaptation followed by
task execution: whether the error message was written to `std::cerr`, whether
a set call was attempted, and how many times the task's callable ran. -/
structure AdaptOutcome where
  loggedError : Bool
  setAttempted : Bool
  taskRuns : Nat
deriving DecidableEq

/-- The Linux branch of the worker body after `lock.unlock()`:
`pthread_getschedparam` (read result modelled as `some current` on success,
`none` on failure); on success, if the current value differs from the task's
numeric priority, `pthread_setschedparam` is attempted and the error message
is printed only when that set fails; in every path `task.first()` then runs
exactly once. Note the read-failure branch does nothing at all (no log). -/
def linuxAdaptAndExecute (current : Option Int) (taskPriority : Int) (setOk : Bool) : AdaptOutcome :=
  match current with
  | none => ⟨false, false, 1⟩
  | some cur =>
    if cur = taskPriority then ⟨false, false, 1⟩
    else if setOk then ⟨false, true, 1⟩
    else ⟨true, true, 1⟩

/-- The Windows branch: `GetThreadPriority` yields an integer (an error is not
distinguished from a value by the code); `SetThreadPriority` is attempted only
when it differs from the task's numeric priority, logging on set failure;
`task.first()` then runs exactly once. -/
def windowsAdaptAndExecute (current : Int) (taskPriority : Int) (setOk : Bool) : AdaptOutcome :=
  if current = taskPriority then ⟨false, false, 1⟩
  else if setOk then ⟨false, true, 1⟩
  else ⟨true, true, 1⟩

/-- Primitive actions for linearising the methods' lock discipline. -/
inductive Action
  | lockExclusive
  | unlock
  | popTop
  | getOsPriority
  | setOsPriority
  | logError
  | execTask
  | writeQuit
  | notifyAll
  | notifyOne
  | pushTask
  | joinWorkers
deriving DecidableEq

/-- The OS-priority actions of the Linux adaptation block, in source order:
the get call always happens; the set call only under the inequality test; the
log only when the set fails. -/
def adaptActionsLinux (current : Option Int) (taskPriority : Int) (setOk : Bool) : List Action :=
  match current with
  | none => [Action.getOsPriority]
  | some cur =>
    Action.getOsPriority ::
      (if cur = taskPriority then []
       else Action.setOsPriority :: (if setOk then [] else [Action.logError]))

/-- Action trace of one successful-dequeue pass of the worker body: acquire the
lock (inside `m_cv.wait`), `top()`/`pop()`, `lock.unlock()`, then the
OS-priority adaptation and finally `task.first()`. -/
def workerDequeueTrace (current : Option Int) (taskPriority : Int) (setOk : Bool) : List Action :=
  Action.lockExclusive :: Action.popTop :: Action.unlock ::
    (adaptActionsLinux current taskPriority setOk ++ [Action.execTask])

/-- Checks, carrying the current exclusive-lock depth, that every OS-priority
call of a trace happens with the lock released (depth 0). -/
def osCallsUnlocked : Nat → List Action → Bool
  | _, [] => true
  | d, Action.lockExclusive :: tr => osCallsUnlocked (d + 1) tr
  | d, Action.unlock :: tr => osCallsUnlocked (d - 1) tr
  | d, Action.getOsPriority :: tr => (d == 0) && osCallsUnlocked d tr
  | d, Action.setOsPriority :: tr => (d == 0) && osCallsUnlocked d tr
  | d, _ :: tr => osCallsUnlocked d tr

/-- Action trace of `~PriorityThreadPool()`: the body is `m_quit = true;`
followed by `m_cv.notify_all();` — no lock acquisition anywhere. The implicit
join of the workers happens afterwards, when the `std::jthread` members are
destroyed. -/
def destructorBodyTrace : List Action :=
  [Action.writeQuit, Action.notifyAll, Action.joinWorkers]

/-- Checks, carrying the exclusive-lock depth, that every write of the
shutdown flag in a trace happens while the lock is held (depth positive). -/
def writeQuitUnderLock : Nat → List Action → Bool
  | _, [] => true
  | d, Action.lockExclusive :: tr => writeQuitUnderLock (d + 1) tr
  | d, Action.unlock :: tr => writeQuitUnderLock (d - 1) tr
  | d, Action.writeQuit :: tr => decide (0 < d) && writeQuitUnderLock d tr
  | d, _ :: tr => writeQuitUnderLock d tr

/-- Action trace of the single-task `add`: `lock_guard` acquires the exclusive
lock, the record is pushed, the guard releases at scope exit, then
`m_cv.notify_one()`. Shows the write side of the queue discipline for
contrast with the destructor trace. -/
def addBodyTrace : List Action :=
  [Action.lockExclusive, Action.pushTask, Action.unlock, Action.notifyOne]

/-- Checks, carrying the exclusive-lock depth, that every queue mutation in a
trace happens while the lock is held (depth positive). -/
def pushUnderLock : Nat → List Action → Bool
  | _, [] => true
  | d, Action.lockExclusive :: tr => pushUnderLock (d + 1) tr
  | d, Action.unlock :: tr => pushUnderLock (d - 1) tr
  | d, Action.pushTask :: tr => decide (0 < d) && pushUnderLock d tr
  | d, _ :: tr => pushUnderLock d tr

section Theorems

/-- On both platforms the comparator's strict order coincides with the
abstract rank order: the platform-flipped comparison direction exactly
compensates for the platform's numeric encoding. -/
theorem taskPriorityComparator_eq_rank (pf : Platform) (a b : TaskPriority) :
    taskPriorityComparator pf a b = decide (rank a.2 < rank b.2) := by
  rcases a with ⟨ta, pa⟩
  rcases b with ⟨tb, pb⟩
  cases pf <;> cases pa <;> cases pb <;> rfl

/-- `popMax` fails exactly on the empty queue (`top()` precondition). -/
theorem popMax_eq_none_iff (pf : Platform) (q : List TaskPriority) :
    popMax pf q = none ↔ q = [] := by
  cases q with
  | nil => simp [popMax]
  | cons a l =>
    cases h : popMax pf l with
    | none => simp [popMax, h]
    | some mr =>
      rcases mr with ⟨m, r⟩
      cases hc : taskPriorityComparator pf a m <;> simp [popMax, h, hc]

/-- Pushing a whole list (what the span overload's `for_each` does) prepends
the reversed list to the queue's multiset representation. -/
theorem foldl_push_eq (l q : List TaskPriority) :
    l.foldl push q = l.reverse ++ q := by
  induction l generalizing q with
  | nil => simp
  | cons a l ih => simp [List.foldl_cons, ih, push, List.append_assoc]

/-- C2: for every non-empty queue state, the dequeue step removes and returns
a record whose Priority is maximal under the abstract order
Realtime > High > Normal > Low > Lowest, on both platforms (i.e. regardless of
the numeric encoding and the flipped comparator direction): the returned
record together with the remaining records is a permutation of the original
queue, and no record of strictly greater rank was pending. -/
theorem popMax_returns_abstract_max (pf : Platform) (q : List TaskPriority)
    (m : TaskPriority) (r : List TaskPriority) (h : popMax pf q = some (m, r)) :
    List.Perm (m :: r) q ∧ ∀ x ∈ q, rank x.2 ≤ rank m.2 := by
  induction q generalizing m r with
  | nil => simp [popMax] at h
  | cons a l ih =>
    cases hl : popMax pf l with
    | none =>
      have hl0 : l = [] := (popMax_eq_none_iff pf l).1 hl
      subst hl0
      simp only [popMax] at h
      rcases h with ⟨rfl, rfl⟩ | ⟨⟩
      constructor
      · exact List.Perm.refl _
      · intro x hx
        simp only [List.mem_singleton] at hx
        subst hx
        exact Nat.le_refl _
    | some mr =>
      rcases mr with ⟨m0, r0⟩
      have ihspec := ih m0 r0 hl
      simp only [popMax, hl] at h
      cases hc : taskPriorityComparator pf a m0 with
      | true =>
        rw [hc, if_pos rfl] at h
        injection h with h1
        injection h1 with hm hr
        subst hm
        subst hr
        have hlt : rank a.2 < rank m0.2 := by
          have hcr := taskPriorityComparator_eq_rank pf a m0
          rw [hc] at hcr
          exact of_decide_eq_true hcr.symm
        refine ⟨(List.Perm.swap a m0 r0).trans (List.Perm.cons a ihspec.1), ?_⟩
        intro x hx
        rcases List.mem_cons.1 hx with rfl | hx2
        · exact Nat.le_of_lt hlt
        · exact ihspec.2 x hx2
      | false =>
        rw [hc, if_neg (by simp)] at h
        injection h with h1
        injection h1 with hm hr
        subst hm
        subst hr
        have hge : rank m0.2 ≤ rank a.2 := by
          have hcr := taskPriorityComparator_eq_rank pf a m0
          rw [hc] at hcr
          exact Nat.le_of_not_lt (of_decide_eq_false hcr.symm)
        refine ⟨List.Perm.refl _, ?_⟩
        intro x hx
        rcases List.mem_cons.1 hx with rfl | hx2
        · exact Nat.le_refl _
        · exact Nat.le_trans (ihspec.2 x hx2) hge

/-- Witness for C2 at a concrete queue: dequeuing from
[(0, Low), (1, High), (2, Normal)] on Linux yields the High record, the
removal is a permutation, and Low ranks no higher than High. -/
theorem popMax_returns_abstract_max_witness :
    List.Perm ((1, Priority.High) :: [(0, Priority.Lowest), (2, Priority.Normal)])
      [(0, Priority.Lowest), (1, Priority.High), (2, Priority.Normal)] ∧
    rank Priority.Lowest ≤ rank Priority.High := by
  have h := popMax_returns_abstract_max Platform.linux
    [(0, Priority.Lowest), (1, Priority.High), (2, Priority.Normal)]
    (1, Priority.High) [(0, Priority.Lowest), (2, Priority.Normal)] (by decide)
  exact ⟨h.1, h.2 (0, Priority.Lowest) (by simp)⟩

/-- C3: the batch `add` overload leaves the pool in exactly the same state as
performing the single-task `add` once per (callable, priority) pair in
sequence order — the two submission paths have the same net effect. -/
theorem addSpan_eq_repeated_add (l : List TaskPriority) (s : PriorityThreadPool) :
    addSpan s l = l.foldl (fun acc tp => add acc tp.1 tp.2) s := by
  induction l generalizing s with
  | nil => rfl
  | cons a la ih =>
    have hstep : addSpan s (a :: la) = addSpan (add s a.1 a.2) la := rfl
    rw [hstep, ih, List.foldl_cons]

/-- C4: constructing with worker count 0 fails with the invalid-argument error
(no pool value is produced, hence no worker thread exists), and for every
count of at least 1 construction succeeds with exactly that many workers, an
empty queue, and the shutdown flag clear. -/
theorem construct_zero_fails_pos_spawns :
    construct 0 = Except.error "maxThreads must be greater than 0!" ∧
    ∀ n : Nat, 0 < n → construct n = Except.ok ⟨false, [], n⟩ := by
  refine ⟨rfl, ?_⟩
  intro n hn
  unfold construct
  rw [if_neg (by omega)]

/-- Witness for C4 at worker count 4. -/
theorem construct_zero_fails_pos_spawns_witness :
    0 < 4 ∧ construct 4 = Except.ok ⟨false, [], 4⟩ :=
  ⟨by decide, construct_zero_fails_pos_spawns.2 4 (by decide)⟩

/-- C9: `hasRemainingTasks` returns true exactly when `remainingTasks` returns
a strictly positive count, and both introspection calls leave the pool state
unchanged (they only take the shared lock and read). -/
theorem hasRemainingTasks_iff_remainingTasks_pos (s : PriorityThreadPool) :
    ((hasRemainingTasks s).1 = true ↔ 0 < (remainingTasks s).1) ∧
    (hasRemainingTasks s).2 = s ∧ (remainingTasks s).2 = s := by
  refine ⟨?_, rfl, rfl⟩
  rcases s with ⟨q, tasks, th⟩
  cases tasks <;> simp [hasRemainingTasks, remainingTasks]

/-- C10: the single-task `add` prepends exactly the given record (queue grows
by 1) and the batch `add` inserts exactly the given K records (queue grows by
K, contents grow by exactly the batch as a multiset); both leave the shutdown
flag and the worker set unchanged, and neither removes any pending record
(every record's multiplicity never decreases). -/
theorem add_and_addSpan_frame (s : PriorityThreadPool) (t : Task) (p : Priority)
    (l : List TaskPriority) :
    ((add s t p).m_tasks = (t, p) :: s.m_tasks ∧
      (add s t p).m_tasks.length = s.m_tasks.length + 1 ∧
      (add s t p).m_quit = s.m_quit ∧ (add s t p).m_threads = s.m_threads) ∧
    ((addSpan s l).m_tasks.length = s.m_tasks.length + l.length ∧
      List.Perm (addSpan s l).m_tasks (l ++ s.m_tasks) ∧
      (addSpan s l).m_quit = s.m_quit ∧ (addSpan s l).m_threads = s.m_threads) ∧
    (∀ x : TaskPriority, s.m_tasks.count x ≤ (add s t p).m_tasks.count x ∧
      s.m_tasks.count x ≤ (addSpan s l).m_tasks.count x) := by
  refine ⟨⟨rfl, rfl, rfl, rfl⟩, ⟨?_, ?_, rfl, rfl⟩, ?_⟩
  · simp [addSpan, foldl_push_eq, Nat.add_comm]
  · show List.Perm (l.foldl push s.m_tasks) (l ++ s.m_tasks)
    rw [foldl_push_eq]
    exact List.Perm.append_right s.m_tasks (List.reverse_perm l)
  · intro x
    constructor
    · show s.m_tasks.count x ≤ ((t, p) :: s.m_tasks).count x
      by_cases hx : x = (t, p)
      · subst hx
        rw [List.count_cons_self]
        exact Nat.le_succ _
      · rw [List.count_cons_of_ne hx]
    · show s.m_tasks.count x ≤ (l.foldl push s.m_tasks).count x
      rw [foldl_push_eq, List.count_append]
      exact Nat.le_add_left _ _

/-- C1 counterexample: with the shutdown flag set and one record still queued,
a worker pass pops and executes that record — refuting, at this concrete
input, the claim that after shutdown is requested no worker ever pops or
executes a queued record. The loop breaks only when the queue is empty, so a
record pending at destruction time is not dropped. -/
theorem workerIteration_pops_after_quit_counterexample :
    workerIteration Platform.linux true [(0, Priority.Normal)] =
      IterOutcome.ran (0, Priority.Normal) [] := by
  rfl

/-- C1 amended: after shutdown is requested, a worker pass reaches the
Terminal state exactly when the queue is empty; whenever records are still
queued it instead pops one (the comparator-maximal one) and executes it — the
queue is drained, and only records never reached before the workers empty the
queue would go unexecuted. -/
theorem workerIteration_quit_drains (pf : Platform) (tasks : List TaskPriority) :
    (workerIteration pf true tasks = IterOutcome.exited ↔ tasks = []) ∧
    (tasks ≠ [] → ∃ tp rest, popMax pf tasks = some (tp, rest) ∧
      workerIteration pf true tasks = IterOutcome.ran tp rest) := by
  cases tasks with
  | nil => simp [workerIteration]
  | cons a l =>
    cases h : popMax pf (a :: l) with
    | none =>
      exact absurd ((popMax_eq_none_iff pf (a :: l)).1 h) (by simp)
    | some mr =>
      rcases mr with ⟨tp, rest⟩
      constructor
      · simp [workerIteration, h]
      · intro hne
        exact ⟨tp, rest, rfl, by simp [workerIteration, h]⟩

/-- Witness for C1's amended theorem at a one-record queue with shutdown
requested: the pass pops and runs that record rather than exiting. -/
theorem workerIteration_quit_drains_witness :
    ∃ tp rest, popMax Platform.windows [(7, Priority.Low)] = some (tp, rest) ∧
      workerIteration Platform.windows true [(7, Priority.Low)] = IterOutcome.ran tp rest :=
  (workerIteration_quit_drains Platform.windows [(7, Priority.Low)]).2 (by simp)

/-- C6: a worker pass leaves the Waiting state exactly when the wait predicate
`m_quit || !m_tasks.empty()` holds; woken with an empty queue and shutdown not
requested it consumes nothing and stays Waiting (the predicate wait re-blocks),
and woken with an empty queue and shutdown requested it exits the loop. -/
theorem workerIteration_wait_predicate (pf : Platform) (quit : Bool)
    (tasks : List TaskPriority) :
    (workerIteration pf quit tasks ≠ IterOutcome.blocked ↔ (quit = true ∨ tasks ≠ [])) ∧
    (quit = false → tasks = [] → workerIteration pf quit tasks = IterOutcome.blocked) ∧
    (quit = true → tasks = [] → workerIteration pf quit tasks = IterOutcome.exited) := by
  cases quit <;> cases tasks with
  | nil => simp [workerIteration]
  | cons a l =>
    cases h : popMax pf (a :: l) with
    | none => exact absurd ((popMax_eq_none_iff pf (a :: l)).1 h) (by simp)
    | some mr => rcases mr with ⟨tp, rest⟩; simp [workerIteration, h]

/-- Witness for C6: with the shutdown flag clear and an empty queue the worker
stays blocked in Waiting, and with the flag set and an empty queue it exits. -/
theorem workerIteration_wait_predicate_witness :
    workerIteration Platform.linux false [] = IterOutcome.blocked ∧
    workerIteration Platform.linux true [] = IterOutcome.exited :=
  ⟨(workerIteration_wait_predicate Platform.linux false []).2.1 rfl rfl,
   (workerIteration_wait_predicate Platform.linux true []).2.2 rfl rfl⟩

/-- C5 counterexample: when reading the OS scheduling priority fails
(`pthread_getschedparam` nonzero, modelled as `current = none`), no diagnostic
is emitted — the whole adaptation block is silently skipped — refuting the
claim that a diagnostic is emitted in the read-failure branch as well. -/
theorem linuxAdapt_read_failure_silent_counterexample :
    ¬ ((linuxAdaptAndExecute none 50 true).loggedError = true) := by
  decide

/-- C5 amended: a failure to set the native scheduling priority is non-fatal
and reported, but a failure to read it is non-fatal and silent (no diagnostic,
no set attempt); in either case the task's callable still runs exactly once
afterwards at whatever priority the worker currently holds. -/
theorem linuxAdapt_failure_semantics (v cur : Int) (ok : Bool) :
    ((linuxAdaptAndExecute none v ok).loggedError = false ∧
      (linuxAdaptAndExecute none v ok).setAttempted = false ∧
      (linuxAdaptAndExecute none v ok).taskRuns = 1) ∧
    (cur ≠ v →
      (linuxAdaptAndExecute (some cur) v false).loggedError = true ∧
      (linuxAdaptAndExecute (some cur) v false).taskRuns = 1) := by
  refine ⟨⟨rfl, rfl, rfl⟩, ?_⟩
  intro hne
  rw [linuxAdaptAndExecute, if_neg hne, if_neg (by simp)]
  exact ⟨rfl, rfl⟩

/-- Witness for C5's amended theorem: current priority 25, task priority 50,
set failing — the diagnostic is emitted and the task still runs once. -/
theorem linuxAdapt_failure_semantics_witness :
    (linuxAdaptAndExecute (some 25) 50 false).loggedError = true ∧
    (linuxAdaptAndExecute (some 25) 50 false).taskRuns = 1 :=
  (linuxAdapt_failure_semantics 50 25 false).2 (by decide)

/-- C7: the OS-priority adaptation happens with the queue lock released (the
trace shows depth 0 at every get/set call, the `unlock` preceding them), and a
set call is attempted exactly when the current OS priority was read and
differs from the numeric value encoded by the task's Priority — on both the
Linux and the Windows branch. -/
theorem adaptation_unlocked_and_conditional (cur : Option Int) (v : Int) (ok : Bool) :
    osCallsUnlocked 0 (workerDequeueTrace cur v ok) = true ∧
    ((linuxAdaptAndExecute cur v ok).setAttempted = true ↔ ∃ c, cur = some c ∧ c ≠ v) ∧
    (∀ (c : Int) (ok2 : Bool),
      (windowsAdaptAndExecute c v ok2).setAttempted = true ↔ c ≠ v) := by
  refine ⟨?_, ?_, ?_⟩
  · cases cur with
    | none => rfl
    | some c =>
      by_cases hc : c = v
      · simp [workerDequeueTrace, adaptActionsLinux, osCallsUnlocked, hc]
      · cases ok <;>
          simp [workerDequeueTrace, adaptActionsLinux, osCallsUnlocked, hc]
  · cases cur with
    | none => simp [linuxAdaptAndExecute]
    | some c =>
      by_cases hc : c = v
      · subst hc
        simp [linuxAdaptAndExecute]
      · cases ok <;> simp [linuxAdaptAndExecute, hc]
  · intro c ok2
    by_cases hc : c = v
    · subst hc
      simp [windowsAdaptAndExecute]
    · cases ok2 <;> simp [windowsAdaptAndExecute, hc]

/-- Witness for C7: current priority 25, task priority 50 — all OS calls in
the trace happen unlocked and the set call is attempted. -/
theorem adaptation_unlocked_and_conditional_witness :
    osCallsUnlocked 0 (workerDequeueTrace (some 25) 50 true) = true ∧
    (linuxAdaptAndExecute (some 25) 50 true).setAttempted = true :=
  ⟨(adaptation_unlocked_and_conditional (some 25) 50 true).1,
   (adaptation_unlocked_and_conditional (some 25) 50 true).2.1.mpr
     ⟨25, rfl, by decide⟩⟩

/-- C8 (code evaluation): the destructor body writes the shutdown flag with
the exclusive lock never held (`m_quit = true` precedes any lock operation —
in fact the destructor never takes `m_mutex` at all), while the submit path
does push under the lock. This is the unlocked flag write that lets the
notify race with a worker that has evaluated the wait predicate but not yet
blocked. -/
theorem destructor_writes_quit_unlocked :
    writeQuitUnderLock 0 destructorBodyTrace = false ∧
    Action.writeQuit ∈ destructorBodyTrace ∧
    pushUnderLock 0 addBodyTrace = true := by
  decide

end Theorems

end PriorityThreadPoolModel
